import Mathlib

/-!
Verification development for the breakpoint-calling engine in
`structural_variant/validate/call.py`.

The core module under verification is `call.py` (EventCall, call_events,
_call_by_contigs, _call_by_flanking_pairs, _call_by_supporting_reads).
Collaborator modules (`breakpoint.py`, `interval.py`, `bam/read.py`,
`constants.py`, the Evidence class) are not part of the sources; where the
engine depends on them, the definitions below are modelled from the spec and
carry a doc comment saying so.

Conventions of the shallow embedding:
* Python exceptions are modelled by `Except PyError`; each `PyError`
  constructor names the Python exception class raised at the matching site.
* Python `set`s of strings are modelled as insertion-ordered duplicate-free
  lists when their iteration order can leak into output (`';'.join(...)`),
  and as `Finset String` when only cardinality and membership matter.
* Python dicts (`pos1` / `pos2` in `_call_by_supporting_reads`) are modelled
  as insertion-ordered association lists, matching CPython's dict semantics.
* genomic coordinates are `Int` (Python ints); split-read alignment
  positions reported by `breakpoint_pos` are `Nat` (pysam positions are
  non-negative).
-/

namespace Mavis

/-- Orientation constants from `constants.ORIENT` (LEFT/RIGHT, plus the
not-specified value NS). -/
inductive ORIENT where
  | LEFT
  | RIGHT
  | NS
deriving DecidableEq, Repr

/-- Strand constants from `constants.STRAND` (modelled from the spec:
strand is carried through breakpoints but never branched on in call.py). -/
inductive STRAND where
  | POS
  | NEG
  | NS
deriving DecidableEq, Repr

/-- Structural-variant type constants from `constants.SVTYPE`. -/
inductive SVTYPE where
  | DEL
  | INS
  | DUP
  | INV
  | TRANS
  | ITRANS
deriving DecidableEq, Repr

/-- Call-method constants from `constants.CALL_METHOD` (CONTIG/SPLIT/FLANK). -/
inductive CALL_METHOD where
  | CONTIG
  | SPLIT
  | FLANK
deriving DecidableEq, Repr

/-- Python exception kinds raised by the engine.  `userWarning` and
`assertionError` carry the message string because `call_events` and
`_call_by_supporting_reads` read it back via `str(err)`. -/
inductive PyError where
  | typeError
  | nameError
  | notImplementedError
  | attributeError
  | valueError
  | keyError
  | notSpecifiedError
  | assertionError (msg : String)
  | userWarning (msg : String)
deriving DecidableEq, Repr

/-- Modelled from the spec: an `Interval` (interval.py is outside the given
sources) is a 1-based inclusive pair of coordinates. -/
structure Interval where
  start : Int
  stop : Int
deriving DecidableEq, Repr

/-- Modelled from the spec: `len(interval)` for the inclusive intervals of
interval.py is `end - start + 1` (the covering-interval length of spec 4.4). -/
def intervalLen (i : Interval) : Int :=
  i.stop - i.start + 1

/-- Modelled from the spec: `Interval.overlaps` — two inclusive intervals
overlap unless one ends before the other starts. -/
def overlapsB (a b : Interval) : Bool :=
  !(decide (a.stop < b.start) || decide (b.stop < a.start))

/-- Modelled from the spec: a `Breakpoint` (breakpoint.py is outside the given
sources) is a chromosome name, a 1-based inclusive interval, an orientation
and an optional strand.  The field `stop` models the source attribute `end`
(a Lean keyword). -/
structure Breakpoint where
  chr : String
  start : Int
  stop : Int
  orient : ORIENT
  strand : STRAND
deriving DecidableEq, Repr

/-- Modelled from the spec: the `Breakpoint` constructor validates its
interval — coordinates are 1-based and non-negative and `start ≤ end`; an
invalid interval raises `AttributeError` (this is the exception the flanking
caller in call.py guards against with `try/except AttributeError`). -/
def mkBreakpoint (chr : String) (s e : Int) (o : ORIENT) (st : STRAND) :
    Except PyError Breakpoint :=
  if s < 1 ∨ e < s then .error .attributeError
  else .ok { chr := chr, start := s, stop := e, orient := o, strand := st }

/-- Breakpoint at a single position.  Used for the split-read call sites
(call.py lines 364-365, 379-380) where the position is `breakpoint_pos + 1 ≥ 1`
and `start = end`, so the checked constructor cannot fail. -/
def Breakpoint.atPos (chr : String) (p : Nat) (o : ORIENT) (st : STRAND) :
    Breakpoint :=
  { chr := chr, start := (p : Int), stop := (p : Int), orient := o, strand := st }

/-- Copy of a breakpoint with `start` and `end` both set to `p` — models
`bp = sys_copy(ev.break1); bp.start = pos; bp.end = pos` (call.py 391-393). -/
def setPos (b : Breakpoint) (p : Nat) : Breakpoint :=
  { b with start := (p : Int), stop := (p : Int) }

/-- A split read as the engine sees it: a query name, the combined
`has_tag ∧ get_tag` flag for `PYSAM_READ_FLAGS.TARGETED_ALIGNMENT`, and the
result of `bam.read.breakpoint_pos` per orientation.  Modelled from the spec:
`breakpoint_pos` lives in bam/read.py outside the given sources; it either
returns a non-negative alignment position or raises `AttributeError`
(modelled as `none`; both call sites in call.py catch `AttributeError`). -/
structure SplitRead where
  query_name : String
  targeted : Bool
  bpPos : ORIENT → Option Nat

/-- One read of a flanking pair: the fields of a pysam read that
`count_flanking_support` and `_call_by_flanking_pairs` access. -/
structure FlankRead where
  query_name : String
  template_length : Int
  reference_start : Int
  reference_end : Int
  next_reference_start : Int

/-- Modelled from the spec: the result of the external
`BreakpointPair.call_breakpoint_pair(read1, read2)` for one contig alignment
pair — a candidate breakpoint pair with an `opposing_strands` flag and a
derived untemplated sequence. -/
structure BppCall where
  break1 : Breakpoint
  break2 : Breakpoint
  opposing_strands : Bool
  untemplated_sequence : Option String

/-- One `(read1, read2)` alignment pair of a contig.  `called` is the outcome
of `BreakpointPair.call_breakpoint_pair` on it: `none` models the per-pair
`UserWarning` that `_call_by_contigs` skips silently. -/
structure AlignPair where
  called : Option BppCall

/-- An assembled contig with its alignment pairs. -/
structure Contig where
  alignments : List AlignPair

/-- The Evidence object consumed by the engine (modelled from the spec: the
Evidence class is produced by a collaborator outside the given sources).
`computeFragmentSize` models the external `Evidence.compute_fragment_size`;
`bam_stranded` models `evidence.bam_cache.stranded`. -/
structure Evidence where
  break1 : Breakpoint
  break2 : Breakpoint
  opposing_strands : Bool
  stranded : Bool
  bam_stranded : Bool
  untemplated_sequence : Option String
  split_reads0 : List SplitRead
  split_reads1 : List SplitRead
  flanking_pairs : List (FlankRead × FlankRead)
  contigs : List Contig
  computeFragmentSize : FlankRead → FlankRead → Interval
  read_length : Int
  min_expected_fragment_size : Int
  max_expected_fragment_size : Int
  min_flanking_pairs_resolution : Nat
  min_splits_reads_resolution : Nat
  min_non_target_aligned_split_reads : Nat
  min_linking_split_reads : Nat

/-- Derived `interchromosomal` flag of a breakpoint pair (spec 3: chr1 ≠ chr2). -/
def Evidence.interchromosomal (ev : Evidence) : Bool :=
  decide (ev.break1.chr ≠ ev.break2.chr)

/-- Modelled from the spec: one orientation branch of
`BreakpointPair.classify` — the event-type classification is a pure function
of orientation, strand relation and chromosome identity (spec 4.2), pinned
down by the spec scenarios (same-chromosome LEFT/RIGHT non-opposing contains
DEL and INS, RIGHT/LEFT non-opposing is a duplication, same-chromosome
opposing strands an inversion, interchromosomal a translocation). -/
def classifyBase (same : Bool) (o1 o2 : ORIENT) (opp : Bool) : List SVTYPE :=
  if same then
    if opp then
      match o1, o2 with
      | .LEFT, .LEFT => [.INV]
      | .RIGHT, .RIGHT => [.INV]
      | _, _ => []
    else
      match o1, o2 with
      | .LEFT, .RIGHT => [.DEL, .INS]
      | .RIGHT, .LEFT => [.DUP]
      | _, _ => []
  else if opp then [.ITRANS] else [.TRANS]

/-- Modelled from the spec: a not-specified orientation stands for either
concrete orientation. -/
def orientExpand : ORIENT → List ORIENT
  | .NS => [.LEFT, .RIGHT]
  | o => [o]

/-- Modelled from the spec: `BreakpointPair.classify` on a pair geometry,
expanding not-specified orientations. -/
def classifyPair (chr1 chr2 : String) (o1 o2 : ORIENT) (opp : Bool) :
    List SVTYPE :=
  (orientExpand o1).flatMap fun a =>
    (orientExpand o2).flatMap fun b =>
      classifyBase (decide (chr1 = chr2)) a b opp

/-- `BreakpointPair.classify(source_evidence)` as used by `EventCall.__init__`
(call.py line 49). -/
def classifyEvidence (ev : Evidence) : List SVTYPE :=
  classifyPair ev.break1.chr ev.break2.chr ev.break1.orient ev.break2.orient
    ev.opposing_strands

/-- Modelled from the spec: `Evidence.putative_event_types()` is the set of
SV-type tags consistent with the evidence's orientation/strand geometry
(spec 3), i.e. the classification of the evidence's own pair. -/
def putativeEventTypes (ev : Evidence) : List SVTYPE :=
  classifyEvidence ev

/-- `BreakpointPair.classify(bpp)` on a contig-derived candidate pair
(call.py line 184). -/
def classifyBpp (c : BppCall) : List SVTYPE :=
  classifyPair c.break1.chr c.break2.chr c.break1.orient c.break2.orient
    c.opposing_strands

/-- An `EventCall` (call.py lines 12-62): a resolved breakpoint pair bound to
its source evidence.  `stranded`, `opposing_strands`, `untemplated_sequence`
are the values `EventCall.__init__` forwards to `BreakpointPair.__init__`. -/
structure EventCall where
  break1 : Breakpoint
  break2 : Breakpoint
  stranded : Bool
  opposing_strands : Bool
  untemplated_sequence : Option String
  evidence : Evidence
  event_type : SVTYPE
  call_method : CALL_METHOD × CALL_METHOD
  contig : Option Contig
  contig_alignment : Option AlignPair

/-- `EventCall.__init__` (call.py lines 18-62).  The untemplated sequence
defaults to the evidence's; the event type must be a member of
`BreakpointPair.classify(source_evidence)` (else `ValueError`); a contig
forces `call_method = (CONTIG, CONTIG)` and rejects explicit call-method
arguments with `AttributeError`; `CALL_METHOD.enforce(None)` raises
(modelled `keyError`). -/
def eventCallInit (b1 b2 : Breakpoint) (ev : Evidence) (et : SVTYPE)
    (call_method break2_call_method : Option CALL_METHOD)
    (ctg : Option Contig) (ctgAlign : Option AlignPair)
    (unt : Option String) : Except PyError EventCall :=
  let resolvedUnt := match unt with
    | some u => some u
    | none => ev.untemplated_sequence
  if et ∉ classifyEvidence ev then .error .valueError
  else
    match ctg with
    | some c =>
      if call_method.isSome ∨ break2_call_method.isSome then .error .attributeError
      else .ok {
        break1 := b1, break2 := b2,
        stranded := ev.stranded && ev.bam_stranded,
        opposing_strands := ev.opposing_strands,
        untemplated_sequence := resolvedUnt,
        evidence := ev, event_type := et,
        call_method := (CALL_METHOD.CONTIG, CALL_METHOD.CONTIG),
        contig := some c, contig_alignment := ctgAlign }
    | none =>
      match call_method, break2_call_method with
      | some cm, some m2 => .ok {
          break1 := b1, break2 := b2,
          stranded := ev.stranded && ev.bam_stranded,
          opposing_strands := ev.opposing_strands,
          untemplated_sequence := resolvedUnt,
          evidence := ev, event_type := et,
          call_method := (cm, m2),
          contig := none, contig_alignment := ctgAlign }
      | some cm, none => .ok {
          break1 := b1, break2 := b2,
          stranded := ev.stranded && ev.bam_stranded,
          opposing_strands := ev.opposing_strands,
          untemplated_sequence := resolvedUnt,
          evidence := ev, event_type := et,
          call_method := (cm, cm),
          contig := none, contig_alignment := ctgAlign }
      | none, _ => .error .keyError

/-- The event call the split-read and flanking paths of call.py build: no
contig, the evidence's untemplated sequence, a given call-method pair.  The
`ValueError` check of the constructor depends only on `(ev, et)` and is
factored out to the call sites (see `eventCallInit_split_ok`). -/
def mkEventCall (ev : Evidence) (et : SVTYPE) (b1 b2 : Breakpoint)
    (cm : CALL_METHOD × CALL_METHOD) : EventCall :=
  { break1 := b1, break2 := b2,
    stranded := ev.stranded && ev.bam_stranded,
    opposing_strands := ev.opposing_strands,
    untemplated_sequence := ev.untemplated_sequence,
    evidence := ev, event_type := et,
    call_method := cm, contig := none, contig_alignment := none }

/-- Insertion sort step for `Int` lists (used for `statistics.median`). -/
def insertInt (a : Int) : List Int → List Int
  | [] => [a]
  | b :: r => if a ≤ b then a :: b :: r else b :: insertInt a r

/-- Ascending sort of an `Int` list. -/
def sortInts (l : List Int) : List Int :=
  l.foldr insertInt []

/-- `statistics.median` on integer data: middle element of the sorted list,
or the mean of the two middle elements, as an exact rational. -/
def medianRat (l : List Int) : Rat :=
  let s := sortInts l
  let n := s.length
  if n % 2 = 1 then ((s.getD (n / 2) 0 : Int) : Rat)
  else (((s.getD (n / 2 - 1) 0 : Int) : Rat) + ((s.getD (n / 2) 0 : Int) : Rat)) / 2

/-- Sum of squared deviations from `med` (the accumulation loop of
`count_flanking_support`, call.py lines 87-89). -/
def sqDevSum (med : Rat) (l : List Int) : Rat :=
  (l.map (fun x => ((x : Rat) - med) * ((x : Rat) - med))).sum

/-- `EventCall.count_flanking_support` (call.py lines 64-94).  The loop body
tests `isize` against `exp_isize_range`, a name defined nowhere in call.py:
for `INS` and `DEL` the conjunction is entered and dereferencing
`exp_isize_range` raises `NameError` at the first iterated read; for every
other event type Python's short-circuit evaluation never reaches the name
and all reads qualify.  The returned triple is (number of distinct
qualifying query names, median insert size, squared deviation about the
median divided by the count); the source applies `math.sqrt` to the last
component as its final step, which is omitted here (square root of the
modelled value; no claim depends on its magnitude). -/
def countFlankingSupport (call : EventCall) : Except PyError (Nat × Rat × Rat) :=
  let reads := call.evidence.flanking_pairs.flatMap fun pr => [pr.1, pr.2]
  if call.event_type = SVTYPE.INS ∨ call.event_type = SVTYPE.DEL then
    match reads with
    | [] => .ok (0, 0, 0)
    | _ :: _ => .error .nameError
  else
    let names := (reads.map fun r => r.query_name).toFinset
    let sizes := reads.map fun r => (r.template_length.natAbs : Int)
    if 0 < names.card then
      .ok (names.card, medianRat sizes,
        sqDevSum (medianRat sizes) sizes / ((sizes.length : Int) : Rat))
    else .ok (0, 0, 0)

/-- Qualification test of `count_split_read_support` for one read against one
side: `breakpoint_pos(read, orient)` must be defined (else the
`AttributeError` is caught and the read skipped) and `(bpos, bpos)` must
overlap the call's breakpoint interval. -/
def qualifiesB (o : ORIENT) (b : Breakpoint) (r : SplitRead) : Bool :=
  match r.bpPos o with
  | none => false
  | some p => overlapsB ⟨(p : Int), (p : Int)⟩ ⟨b.start, b.stop⟩

/-- Loop body of `count_split_read_support` for one side: insert the read's
query name into the support set when it qualifies, and also into the
realignment subset when the read carries the targeted-alignment tag. -/
def splitStep (o : ORIENT) (b : Breakpoint)
    (acc : Finset String × Finset String) (r : SplitRead) :
    Finset String × Finset String :=
  if qualifiesB o b r then
    (insert r.query_name acc.1,
     if r.targeted then insert r.query_name acc.2 else acc.2)
  else acc

/-- `EventCall.count_split_read_support` (call.py lines 96-135): per-side
distinct-name support counts, their targeted-realignment subsets, and the
size of the intersection of the two support sets. -/
def countSplitReadSupport (call : EventCall) : Nat × Nat × Nat × Nat × Nat :=
  let a := call.evidence.split_reads0.foldl
    (splitStep call.break1.orient call.break1) (∅, ∅)
  let b := call.evidence.split_reads1.foldl
    (splitStep call.break2.orient call.break2) (∅, ∅)
  (a.1.card, a.2.card, b.1.card, b.2.card, (a.1 ∩ b.1).card)

/-- `EventCall.__hash__` (call.py lines 137-138) unconditionally raises
`NotImplementedError`. -/
def eventCallHash (_ : EventCall) : Except PyError Nat :=
  .error .notImplementedError

/-- `EventCall.__eq__` (call.py lines 140-141) evaluates
`object.__eq__(self, other)` but discards the result and falls off the end
of the method, so the comparison always evaluates to Python `None`. -/
def eventCallEq (_ _ : EventCall) : Option Bool :=
  none

/-- Python truthiness of an optional boolean: `None` is falsy. -/
def pyTruthy : Option Bool → Bool
  | none => false
  | some b => b

/-- Loop body of `_call_by_contigs` (call.py lines 176-196) over the
flattened (contig, alignment-pair) sequence.  A pair whose
`call_breakpoint_pair` failed with `UserWarning` is skipped, as is any
candidate failing the strand/untemplated/classification filter.  An accepted
candidate reaches the `EventCall(...)` call at lines 186-195, which passes
the keyword arguments `alignment=` and `opposing_strands=` — neither is a
parameter of `EventCall.__init__` — and omits the required positional
parameter `call_method`; Python therefore raises `TypeError` at the call. -/
def contigLoop (ev : Evidence) (et : SVTYPE) :
    List (Contig × AlignPair) → Except PyError (List EventCall)
  | [] => .ok []
  | (_, ap) :: rest =>
    match ap.called with
    | none => contigLoop ev et rest
    | some bpp =>
      if bpp.opposing_strands ≠ ev.opposing_strands
          ∨ (et = SVTYPE.INS ∧ bpp.untemplated_sequence = some "")
          ∨ et ∉ classifyBpp bpp then
        contigLoop ev et rest
      else .error .typeError

/-- `_call_by_contigs` (call.py lines 173-197). -/
def callByContigs (ev : Evidence) (et : SVTYPE) : Except PyError (List EventCall) :=
  contigLoop ev et (ev.contigs.flatMap fun c => c.alignments.map fun a => (c, a))

/-- Fragment-size filter of `_call_by_flanking_pairs` (call.py lines
210-217): a deletion keeps a pair only when the fragment-size upper bound
exceeds `max_expected_fragment_size`, an insertion only when the lower bound
is below `min_expected_fragment_size`; every other event type keeps all
pairs. -/
def flankKeep (ev : Evidence) (et : SVTYPE) (pr : FlankRead × FlankRead) : Bool :=
  match et with
  | .DEL => decide (ev.max_expected_fragment_size < (ev.computeFragmentSize pr.1 pr.2).stop)
  | .INS => decide ((ev.computeFragmentSize pr.1 pr.2).start < ev.min_expected_fragment_size)
  | _ => true

/-- Minimum of a nonempty coordinate list (Python `min`; the empty case is
unreachable at the call sites, which guard against it first). -/
def listMin : List Int → Int
  | [] => 0
  | a :: r => r.foldl min a

/-- Maximum of a nonempty coordinate list (Python `max`). -/
def listMax : List Int → Int
  | [] => 0
  | a :: r => r.foldl max a

/-- First-breakpoint computation of `_call_by_flanking_pairs` (call.py lines
246-278), reached only when no first breakpoint was passed in.  LEFT extends
rightward from the coverage edge, clamped by the other side's coverage and
the already-fixed second breakpoint on intrachromosomal pairs, and converts
an `AttributeError` from the constructor into the incompatibility
`AssertionError`; RIGHT extends leftward clamped at coordinate 1; a
not-specified orientation raises `NotSpecifiedError`. -/
def computeFirstFlank (ev : Evidence) (cover1 cover2 : Interval)
    (secondCalled : Option Breakpoint) : Except PyError Breakpoint :=
  let w := ev.max_expected_fragment_size - intervalLen cover1 - ev.read_length * 2
  match ev.break1.orient with
  | .LEFT =>
    let e1 := cover1.stop + w
    let e2 :=
      if ev.interchromosomal then e1
      else
        let e2a := min e1 (cover2.start - 1)
        match secondCalled with
        | some sc => min e2a (sc.stop - 1)
        | none => e2a
    match mkBreakpoint ev.break1.chr cover1.stop e2 ev.break1.orient ev.break1.strand with
    | .ok b => .ok b
    | .error .attributeError =>
      .error (.assertionError "input breakpoint is incompatible with flanking coverage region")
    | .error e => .error e
  | .RIGHT =>
    mkBreakpoint ev.break1.chr (max (cover1.start - w) 1) (max cover1.start 1)
      ev.break1.orient ev.break1.strand
  | .NS => .error .notSpecifiedError

/-- Second-breakpoint computation of `_call_by_flanking_pairs` (call.py lines
280-314), reached only when no second breakpoint was passed in.  `f` is the
first breakpoint, which is always set by this point (either passed in or just
computed), so the source's `if first_breakpoint_called:` clamp inside the
intrachromosomal branch always applies. -/
def computeSecondFlank (ev : Evidence) (cover1 cover2 : Interval)
    (f : Breakpoint) : Except PyError Breakpoint :=
  let w := ev.max_expected_fragment_size - intervalLen cover2 - ev.read_length * 2
  match ev.break2.orient with
  | .LEFT =>
    mkBreakpoint ev.break2.chr cover2.stop (cover2.stop + w)
      ev.break2.orient ev.break2.strand
  | .RIGHT =>
    let s1 := max (cover2.start - w) 1
    let s2 :=
      if ev.interchromosomal then s1
      else max (max s1 (cover1.stop + 1)) (f.start + 1)
    match mkBreakpoint ev.break2.chr s2 cover2.start ev.break2.orient ev.break2.strand with
    | .ok b => .ok b
    | .error .attributeError =>
      .error (.assertionError "input breakpoint is incompatible with flanking coverage region")
    | .error e => .error e
  | .NS => .error .notSpecifiedError

/-- `_call_by_flanking_pairs` (call.py lines 200-315).  Rejects calls where
both sides are already fixed (`ValueError`); filters flanking pairs by the
event-type fragment-size policy; requires the retained count to reach
`min_flanking_pairs_resolution`; computes per-side covering intervals of the
implied read extents; rejects overlapping covers on intrachromosomal pairs
and covers larger than expected (`AssertionError`); then resolves each
unfixed side.  Python `min`/`max` on an empty position list (possible only
with `min_flanking_pairs_resolution = 0`) raises `ValueError`. -/
def callByFlankingPairs (ev : Evidence) (et : SVTYPE)
    (firstCalled secondCalled : Option Breakpoint) :
    Except PyError (Breakpoint × Breakpoint) :=
  if firstCalled.isSome ∧ secondCalled.isSome then .error .valueError
  else
    let kept := ev.flanking_pairs.filter (flankKeep ev et)
    if kept.length < ev.min_flanking_pairs_resolution then
      .error (.assertionError "insufficient coverage to call by flanking reads")
    else if kept.isEmpty then .error .valueError
    else
      let firstPositions := kept.flatMap fun pr =>
        [pr.1.reference_start + 1, pr.1.reference_end, pr.2.next_reference_start + 1]
      let secondPositions := kept.flatMap fun pr =>
        [pr.2.reference_start + 1, pr.2.reference_end, pr.1.next_reference_start + 1]
      let cover1 : Interval := ⟨listMin firstPositions, listMax firstPositions⟩
      let cover2 : Interval := ⟨listMin secondPositions, listMax secondPositions⟩
      if !ev.interchromosomal && overlapsB cover1 cover2 then
        .error (.assertionError "flanking read coverage overlaps. cannot call by flanking reads")
      else if intervalLen cover1 + ev.read_length * 2 > ev.max_expected_fragment_size
          ∨ intervalLen cover2 + ev.read_length * 2 > ev.max_expected_fragment_size then
        .error (.assertionError "Cannot resolve by flanking reads. Coverage interval of flanking reads is larger than expected for normal variation. It is likely there are flanking reads for multiple events")
      else
        match firstCalled with
        | some f0 =>
          match computeSecondFlank ev cover1 cover2 f0 with
          | .ok s => .ok (f0, s)
          | .error e => .error e
        | none =>
          match computeFirstFlank ev cover1 cover2 secondCalled with
          | .error e => .error e
          | .ok f =>
            match secondCalled with
            | some s0 => .ok (f, s0)
            | none =>
              match computeSecondFlank ev cover1 cover2 f with
              | .ok s => .ok (f, s)
              | .error e => .error e

/-- Key extraction for the split-read position dictionaries: the position a
read contributes is `breakpoint_pos(read, orient) + 1` (call.py line 331), or
nothing when `breakpoint_pos` raises `AttributeError`. -/
def posKey (o : ORIENT) (r : SplitRead) : Option Nat :=
  (r.bpPos o).map (· + 1)

/-- Append a read under its key in an insertion-ordered association list
(Python `d[pos].append(read)` with first-occurrence key order). -/
def addTo : List (Nat × List SplitRead) → Nat → SplitRead →
    List (Nat × List SplitRead)
  | [], p, r => [(p, [r])]
  | (q, rs) :: rest, p, r =>
    if q = p then (q, rs ++ [r]) :: rest
    else (q, rs) :: addTo rest p r

/-- One iteration of the dictionary-building loop (call.py lines 329-337). -/
def posStep (o : ORIENT) (d : List (Nat × List SplitRead)) (r : SplitRead) :
    List (Nat × List SplitRead) :=
  match posKey o r with
  | none => d
  | some p => addTo d p r

/-- The position dictionary for one side before threshold filtering
(call.py lines 329-337), as an insertion-ordered association list. -/
def buildPos (o : ORIENT) (reads : List SplitRead) :
    List (Nat × List SplitRead) :=
  reads.foldl (posStep o) []

/-- Threshold filtering of candidate positions (call.py lines 338-349): a
position survives when its read count reaches `min_splits_reads_resolution`
and its count of reads not flagged as targeted realignments reaches
`min_non_target_aligned_split_reads`.  Deleting keys preserves the order of
the survivors. -/
def filterPos (ev : Evidence) (d : List (Nat × List SplitRead)) :
    List (Nat × List SplitRead) :=
  d.filter fun e =>
    decide (ev.min_splits_reads_resolution ≤ e.2.length)
    && decide (ev.min_non_target_aligned_split_reads ≤
         (e.2.filter fun r => !r.targeted).length)

/-- The filtered position dictionary `pos1` of `_call_by_supporting_reads`. -/
def pos1 (ev : Evidence) : List (Nat × List SplitRead) :=
  filterPos ev (buildPos ev.break1.orient ev.split_reads0)

/-- The filtered position dictionary `pos2` of `_call_by_supporting_reads`. -/
def pos2 (ev : Evidence) : List (Nat × List SplitRead) :=
  filterPos ev (buildPos ev.break2.orient ev.split_reads1)

/-- The break1 candidate sequence the resolver's pairing loops iterate over:
the keys of `pos1` in dictionary (insertion) order. -/
def candidates1 (ev : Evidence) : List Nat :=
  (pos1 ev).map Prod.fst

/-- The break2 candidate sequence: the keys of `pos2` in dictionary order. -/
def candidates2 (ev : Evidence) : List Nat :=
  (pos2 ev).map Prod.fst

/-- Linked-pairing stage of `_call_by_supporting_reads` (call.py lines
351-370): every (break1-candidate, break2-candidate) combination in
dictionary order, skipping pairs violating the same-chromosome ordering and
pairs with fewer than `min_linking_split_reads` reads whose names appear on
both sides.  The two sequential `continue` guards of the source are one
disjunction here. -/
def linkedCalls (ev : Evidence) (et : SVTYPE) : List EventCall :=
  (pos1 ev).flatMap fun fe =>
    (pos2 ev).filterMap fun se =>
      if (ev.break1.chr = ev.break2.chr ∧ se.1 ≤ fe.1)
          ∨ (se.2.filter fun r =>
               decide (r.query_name ∈ fe.2.map fun q => q.query_name)).length
             < ev.min_linking_split_reads then
        none
      else
        some (mkEventCall ev et
          (Breakpoint.atPos ev.break1.chr fe.1 ev.break1.orient ev.break1.strand)
          (Breakpoint.atPos ev.break2.chr se.1 ev.break2.orient ev.break2.strand)
          (CALL_METHOD.SPLIT, CALL_METHOD.SPLIT))

/-- Leftover cross-product stage of `_call_by_supporting_reads` (call.py
lines 372-385): break1 candidates not used as the break1 start of a linked
call crossed with break2 candidates not used as a break2 start, subject to
the same ordering guard.  The source runs this unconditionally after the
linked stage. -/
def unlinkedCalls (ev : Evidence) (et : SVTYPE) : List EventCall :=
  let linked := linkedCalls ev et
  let used1 := linked.map fun t => t.break1.start
  let used2 := linked.map fun t => t.break2.start
  let f := (candidates1 ev).filter fun (p : Nat) => decide ((p : Int) ∉ used1)
  let s := (candidates2 ev).filter fun (p : Nat) => decide ((p : Int) ∉ used2)
  f.flatMap fun first =>
    s.filterMap fun second =>
      if ev.break1.chr = ev.break2.chr ∧ second ≤ first then none
      else
        some (mkEventCall ev et
          (Breakpoint.atPos ev.break1.chr first ev.break1.orient ev.break1.strand)
          (Breakpoint.atPos ev.break2.chr second ev.break2.orient ev.break2.strand)
          (CALL_METHOD.SPLIT, CALL_METHOD.SPLIT))

/-- Insert a string into an insertion-ordered duplicate-free list (Python
`set.add`). -/
def pushUniqueStr (acc : List String) (a : String) : List String :=
  if a ∈ acc then acc else acc ++ [a]

/-- The distinct elements of a string list in first-occurrence order.  This
models the contents of a Python `set` built by successive `add` calls; the
set's own iteration order is unspecified, and first-insertion order is the
fixed representative chosen here. -/
def dedupFirst (l : List String) : List String :=
  l.foldl pushUniqueStr []

/-- Byte-wise lexicographic comparison of character lists. -/
def charsLe : List Char → List Char → Bool
  | [], _ => true
  | _ :: _, [] => false
  | a :: as, b :: bs => if a = b then charsLe as bs else decide (a < b)

/-- Lexicographic string comparison used to model Python `sorted` on
strings. -/
def strLe (a b : String) : Bool :=
  charsLe a.data b.data

/-- Insertion-sort step for strings. -/
def insertStr (a : String) : List String → List String
  | [] => [a]
  | b :: r => if strLe a b then a :: b :: r else b :: insertStr a r

/-- Ascending sort of a string list (Python `sorted`). -/
def sortStrings (l : List String) : List String :=
  l.foldr insertStr []

/-- The failure message of `call_events` (call.py line 167):
`';'.join(sorted(list(errors)))` — the distinct collected messages, sorted,
joined with semicolons. -/
def errsJoin (l : List String) : String :=
  String.intercalate ";" (sortStrings (dedupFirst l))

/-- The failure message of `_call_by_supporting_reads` (call.py line 431):
`';'.join(list(error_messages))` — the distinct collected messages joined
without sorting (set iteration order, modelled as first-insertion order). -/
def setJoin (l : List String) : String :=
  String.intercalate ";" (dedupFirst l)

/-- Mixed-resolution loop over break1 candidates (call.py lines 390-403):
fix break1 at each candidate position, attempt flanking bounding for break2,
collect a `(SPLIT, FLANK)` call on success and the message of an
`AssertionError` or `UserWarning` on failure; any other exception
propagates. -/
def mixedLoopFirst (ev : Evidence) (et : SVTYPE) :
    List Nat → Except PyError (List EventCall × List String)
  | [] => .ok ([], [])
  | p :: rest =>
    match callByFlankingPairs ev et (some (setPos ev.break1 p)) none with
    | .ok fs =>
      match mixedLoopFirst ev et rest with
      | .ok (cs, ms) =>
        .ok (mkEventCall ev et fs.1 fs.2 (CALL_METHOD.SPLIT, CALL_METHOD.FLANK) :: cs, ms)
      | .error e => .error e
    | .error (.assertionError m) =>
      match mixedLoopFirst ev et rest with
      | .ok (cs, ms) => .ok (cs, m :: ms)
      | .error e => .error e
    | .error (.userWarning m) =>
      match mixedLoopFirst ev et rest with
      | .ok (cs, ms) => .ok (cs, m :: ms)
      | .error e => .error e
    | .error e => .error e

/-- Mixed-resolution loop over break2 candidates (call.py lines 405-418),
symmetric to `mixedLoopFirst` with `(FLANK, SPLIT)` calls. -/
def mixedLoopSecond (ev : Evidence) (et : SVTYPE) :
    List Nat → Except PyError (List EventCall × List String)
  | [] => .ok ([], [])
  | p :: rest =>
    match callByFlankingPairs ev et none (some (setPos ev.break2 p)) with
    | .ok fs =>
      match mixedLoopSecond ev et rest with
      | .ok (cs, ms) =>
        .ok (mkEventCall ev et fs.1 fs.2 (CALL_METHOD.FLANK, CALL_METHOD.SPLIT) :: cs, ms)
      | .error e => .error e
    | .error (.assertionError m) =>
      match mixedLoopSecond ev et rest with
      | .ok (cs, ms) => .ok (cs, m :: ms)
      | .error e => .error e
    | .error (.userWarning m) =>
      match mixedLoopSecond ev et rest with
      | .ok (cs, ms) => .ok (cs, m :: ms)
      | .error e => .error e
    | .error e => .error e

/-- `_call_by_supporting_reads` (call.py lines 318-432).  Stage structure of
the source: linked pairing, then (unconditionally) the leftover cross
product; only when both produced nothing, mixed resolution per side and, if
that produced nothing, pure flanking bounding; if no call at all, a
`UserWarning` carrying the joined distinct failure messages.

The per-call `ValueError` check of `EventCall.__init__` depends only on
`(ev, et)` (it tests `event_type ∈ BreakpointPair.classify(source_evidence)`)
and never on the breakpoints of the individual call, so the source's raise at
the first constructed call is modelled as a single guard over each stage's
call list: the guard fires exactly when the source would construct at least
one call with the check failing, and the resulting exception value is the
same `ValueError` (see `eventCallInit_split_ok` for the complementary ok
case). -/
def callBySupportingReads (ev : Evidence) (et : SVTYPE) :
    Except PyError (List EventCall) :=
  let lu := linkedCalls ev et ++ unlinkedCalls ev et
  if lu.isEmpty then
    match mixedLoopFirst ev et (candidates1 ev) with
    | .error e => .error e
    | .ok (c1, m1) =>
      match mixedLoopSecond ev et (candidates2 ev) with
      | .error e => .error e
      | .ok (c2, m2) =>
        let mcalls := c1 ++ c2
        let msgs := m1 ++ m2
        if mcalls.isEmpty then
          match callByFlankingPairs ev et none none with
          | .ok fs =>
            if et ∈ classifyEvidence ev then
              .ok [mkEventCall ev et fs.1 fs.2 (CALL_METHOD.FLANK, CALL_METHOD.FLANK)]
            else .error .valueError
          | .error (.assertionError m) => .error (.userWarning (setJoin (msgs ++ [m])))
          | .error (.userWarning m) => .error (.userWarning (setJoin (msgs ++ [m])))
          | .error e => .error e
        else if et ∈ classifyEvidence ev then .ok mcalls
        else .error .valueError
  else if et ∈ classifyEvidence ev then .ok lu
  else .error .valueError

/-- `call_events` (call.py lines 144-170): reject an event type outside
`putative_event_types()` (`ValueError`); run the contig resolver; only when
it returned no call, run the split-read resolver, capturing a `UserWarning`
message into the error set; with no calls and a captured message, raise a
`UserWarning` with the joined sorted distinct messages; with no calls and no
message, raise the generic insufficient-evidence `UserWarning`.  Exceptions
other than `UserWarning` propagate unchanged. -/
def callEvents (ev : Evidence) (et : SVTYPE) : Except PyError (List EventCall) :=
  if et ∈ putativeEventTypes ev then
    match callByContigs ev et with
    | .error e => .error e
    | .ok contigCalls =>
      if contigCalls.isEmpty then
        match callBySupportingReads ev et with
        | .ok cs =>
          if cs.isEmpty then .error (.userWarning "insufficient evidence to call events")
          else .ok cs
        | .error (.userWarning m) => .error (.userWarning (errsJoin [m]))
        | .error e => .error e
      else .ok contigCalls
  else .error .valueError

/-- Scenario A candidate pair: one contig alignment pair implying
break1 = chr1:100 (LEFT), break2 = chr1:500 (RIGHT), non-opposing strands,
empty untemplated sequence. -/
def scenarioABpp : BppCall :=
  { break1 := ⟨"1", 100, 100, ORIENT.LEFT, STRAND.NS⟩,
    break2 := ⟨"1", 500, 500, ORIENT.RIGHT, STRAND.NS⟩,
    opposing_strands := false,
    untemplated_sequence := some "" }

/-- Scenario A evidence: one contig with one alignment pair whose derived
candidate is `scenarioABpp`; the candidate's strands match the evidence and
DEL is in its classification set, so the contig resolver accepts it. -/
def scenarioAEvidence : Evidence :=
  { break1 := ⟨"1", 50, 150, ORIENT.LEFT, STRAND.NS⟩,
    break2 := ⟨"1", 450, 550, ORIENT.RIGHT, STRAND.NS⟩,
    opposing_strands := false, stranded := false, bam_stranded := false,
    untemplated_sequence := some "",
    split_reads0 := [], split_reads1 := [], flanking_pairs := [],
    contigs := [⟨[⟨some scenarioABpp⟩]⟩],
    computeFragmentSize := fun _ _ => ⟨0, 0⟩,
    read_length := 10, min_expected_fragment_size := 200,
    max_expected_fragment_size := 1000,
    min_flanking_pairs_resolution := 1, min_splits_reads_resolution := 5,
    min_non_target_aligned_split_reads := 0, min_linking_split_reads := 1 }

/-- Evidence for the `count_flanking_support` failing input: a deletion-type
geometry with a single flanking pair. -/
def c5Evidence : Evidence :=
  { break1 := ⟨"1", 100, 100, ORIENT.LEFT, STRAND.NS⟩,
    break2 := ⟨"1", 500, 500, ORIENT.RIGHT, STRAND.NS⟩,
    opposing_strands := false, stranded := false, bam_stranded := false,
    untemplated_sequence := some "",
    split_reads0 := [], split_reads1 := [],
    flanking_pairs := [(⟨"f1", 400, 100, 150, 450⟩, ⟨"f1", -400, 450, 500, 100⟩)],
    contigs := [],
    computeFragmentSize := fun _ _ => ⟨100, 400⟩,
    read_length := 10, min_expected_fragment_size := 200,
    max_expected_fragment_size := 300,
    min_flanking_pairs_resolution := 1, min_splits_reads_resolution := 5,
    min_non_target_aligned_split_reads := 0, min_linking_split_reads := 1 }

/-- A deletion call on `c5Evidence` (DEL is in the evidence's classification
set, so `EventCall.__init__` accepts this combination). -/
def c5Call : EventCall :=
  { break1 := ⟨"1", 100, 100, ORIENT.LEFT, STRAND.NS⟩,
    break2 := ⟨"1", 500, 500, ORIENT.RIGHT, STRAND.NS⟩,
    stranded := false, opposing_strands := false,
    untemplated_sequence := some "",
    evidence := c5Evidence, event_type := SVTYPE.DEL,
    call_method := (CALL_METHOD.SPLIT, CALL_METHOD.SPLIT),
    contig := none, contig_alignment := none }

/-- A second event call for the identity-equality check. -/
def c10Call : EventCall :=
  { break1 := ⟨"1", 100, 100, ORIENT.LEFT, STRAND.NS⟩,
    break2 := ⟨"1", 500, 500, ORIENT.RIGHT, STRAND.NS⟩,
    stranded := false, opposing_strands := false,
    untemplated_sequence := some "",
    evidence := c5Evidence, event_type := SVTYPE.INS,
    call_method := (CALL_METHOD.SPLIT, CALL_METHOD.SPLIT),
    contig := none, contig_alignment := none }

/-- Scenario B evidence: no contigs; six split reads named n1..n6 at
position 100 on side 0 and the same six names at position 500 on side 1;
`min_splits_reads_resolution = 5`, `min_linking_split_reads = 1`. -/
def evB : Evidence :=
  { break1 := ⟨"1", 50, 150, ORIENT.LEFT, STRAND.NS⟩,
    break2 := ⟨"1", 450, 550, ORIENT.RIGHT, STRAND.NS⟩,
    opposing_strands := false, stranded := false, bam_stranded := false,
    untemplated_sequence := some "",
    split_reads0 :=
      [⟨"n1", false, fun _ => some 100⟩, ⟨"n2", false, fun _ => some 100⟩,
       ⟨"n3", false, fun _ => some 100⟩, ⟨"n4", false, fun _ => some 100⟩,
       ⟨"n5", false, fun _ => some 100⟩, ⟨"n6", false, fun _ => some 100⟩],
    split_reads1 :=
      [⟨"n1", false, fun _ => some 500⟩, ⟨"n2", false, fun _ => some 500⟩,
       ⟨"n3", false, fun _ => some 500⟩, ⟨"n4", false, fun _ => some 500⟩,
       ⟨"n5", false, fun _ => some 500⟩, ⟨"n6", false, fun _ => some 500⟩],
    flanking_pairs := [], contigs := [],
    computeFragmentSize := fun _ _ => ⟨0, 0⟩,
    read_length := 10, min_expected_fragment_size := 200,
    max_expected_fragment_size := 1000,
    min_flanking_pairs_resolution := 1, min_splits_reads_resolution := 5,
    min_non_target_aligned_split_reads := 0, min_linking_split_reads := 1 }

/-- The single split-read call Scenario B produces: the resolver stores the
candidate positions as `breakpoint_pos + 1`, so the call sits at
(101, 501), one past the reads' computed positions. -/
def scenarioBCall : EventCall :=
  mkEventCall evB SVTYPE.DEL
    (Breakpoint.atPos "1" 101 ORIENT.LEFT STRAND.NS)
    (Breakpoint.atPos "1" 501 ORIENT.RIGHT STRAND.NS)
    (CALL_METHOD.SPLIT, CALL_METHOD.SPLIT)

/-- Evidence where linked pairing succeeds for one combination while a
candidate position is left over on each side: reads x/y at positions 100/200
on side 0, reads x/z at 500/600 on side 1, with
`min_splits_reads_resolution = 1` and `min_linking_split_reads = 1`.  Only
(101, 501) links (shared name x); 201 and 601 are leftovers. -/
def ev3 : Evidence :=
  { break1 := ⟨"1", 50, 150, ORIENT.LEFT, STRAND.NS⟩,
    break2 := ⟨"1", 450, 650, ORIENT.RIGHT, STRAND.NS⟩,
    opposing_strands := false, stranded := false, bam_stranded := false,
    untemplated_sequence := some "",
    split_reads0 :=
      [⟨"x", false, fun _ => some 100⟩, ⟨"y", false, fun _ => some 200⟩],
    split_reads1 :=
      [⟨"x", false, fun _ => some 500⟩, ⟨"z", false, fun _ => some 600⟩],
    flanking_pairs := [], contigs := [],
    computeFragmentSize := fun _ _ => ⟨0, 0⟩,
    read_length := 10, min_expected_fragment_size := 200,
    max_expected_fragment_size := 1000,
    min_flanking_pairs_resolution := 1, min_splits_reads_resolution := 1,
    min_non_target_aligned_split_reads := 0, min_linking_split_reads := 1 }

/-- Evidence on which the engine emits an intrachromosomal call whose break1
start lies beyond its break2 start: an inversion geometry (both breakpoints
LEFT, opposing strands) with one qualifying split-read position at 1000 on
side 0, no side-1 candidates, and one flanking pair whose covers sit at
100-110 and 200-210. -/
def ev4 : Evidence :=
  { break1 := ⟨"1", 900, 1100, ORIENT.LEFT, STRAND.NS⟩,
    break2 := ⟨"1", 100, 300, ORIENT.LEFT, STRAND.NS⟩,
    opposing_strands := true, stranded := false, bam_stranded := false,
    untemplated_sequence := some "",
    split_reads0 := [⟨"a", false, fun _ => some 999⟩],
    split_reads1 := [],
    flanking_pairs := [(⟨"f", 0, 99, 110, 199⟩, ⟨"f", 0, 199, 210, 99⟩)],
    contigs := [],
    computeFragmentSize := fun _ _ => ⟨0, 0⟩,
    read_length := 10, min_expected_fragment_size := 0,
    max_expected_fragment_size := 100,
    min_flanking_pairs_resolution := 1, min_splits_reads_resolution := 1,
    min_non_target_aligned_split_reads := 0, min_linking_split_reads := 1 }

/-- The violating call `call_events` returns on `ev4`: break1 fixed by the
split read at 1000, break2 bounded by flanking reads at 210-279. -/
def c4BadCall : EventCall :=
  mkEventCall ev4 SVTYPE.INV
    ⟨"1", 1000, 1000, ORIENT.LEFT, STRAND.NS⟩
    ⟨"1", 210, 279, ORIENT.LEFT, STRAND.NS⟩
    (CALL_METHOD.SPLIT, CALL_METHOD.FLANK)

/-- The linked call of `ev3`, used to witness the amended ordering
invariant. -/
def c4WitnessCall : EventCall :=
  mkEventCall ev3 SVTYPE.DEL
    (Breakpoint.atPos "1" 101 ORIENT.LEFT STRAND.NS)
    (Breakpoint.atPos "1" 501 ORIENT.RIGHT STRAND.NS)
    (CALL_METHOD.SPLIT, CALL_METHOD.SPLIT)

/-- The set of distinct query names of reads qualifying against one side of
a call (the support count's specification). -/
def supportNames (o : ORIENT) (b : Breakpoint) (reads : List SplitRead) :
    Finset String :=
  ((reads.filter (qualifiesB o b)).map fun r => r.query_name).toFinset

/-- The subset of qualifying query names whose read carries the targeted
(forced-realignment) flag. -/
def realignNames (o : ORIENT) (b : Breakpoint) (reads : List SplitRead) :
    Finset String :=
  ((reads.filter fun r => qualifiesB o b r && r.targeted).map
    fun r => r.query_name).toFinset

/-- The call with one extra read prepended to the side-0 split-read
collection of its evidence. -/
def withExtraRead0 (call : EventCall) (r : SplitRead) : EventCall :=
  { call with evidence :=
      { call.evidence with split_reads0 := r :: call.evidence.split_reads0 } }

/-- Evidence for the `count_split_read_support` witness: one qualifying read
on each side. -/
def ev6 : Evidence :=
  { break1 := ⟨"1", 250, 350, ORIENT.LEFT, STRAND.NS⟩,
    break2 := ⟨"1", 650, 750, ORIENT.RIGHT, STRAND.NS⟩,
    opposing_strands := false, stranded := false, bam_stranded := false,
    untemplated_sequence := some "",
    split_reads0 := [⟨"w1", false, fun _ => some 300⟩],
    split_reads1 := [⟨"w1", false, fun _ => some 700⟩],
    flanking_pairs := [], contigs := [],
    computeFragmentSize := fun _ _ => ⟨0, 0⟩,
    read_length := 10, min_expected_fragment_size := 200,
    max_expected_fragment_size := 1000,
    min_flanking_pairs_resolution := 1, min_splits_reads_resolution := 1,
    min_non_target_aligned_split_reads := 0, min_linking_split_reads := 1 }

/-- A resolved call on `ev6` whose breakpoints sit exactly at the reads'
computed positions. -/
def c6WitnessCall : EventCall :=
  { break1 := ⟨"1", 300, 300, ORIENT.LEFT, STRAND.NS⟩,
    break2 := ⟨"1", 700, 700, ORIENT.RIGHT, STRAND.NS⟩,
    stranded := false, opposing_strands := false,
    untemplated_sequence := some "",
    evidence := ev6, event_type := SVTYPE.DEL,
    call_method := (CALL_METHOD.SPLIT, CALL_METHOD.SPLIT),
    contig := none, contig_alignment := none }

/-- A read whose breakpoint position is undefined, hence non-overlapping. -/
def c6BadRead : SplitRead :=
  ⟨"bad", false, fun _ => none⟩

/-- Insert a number into an insertion-ordered duplicate-free list (dict key
creation order). -/
def pushUniqueNat (acc : List Nat) (a : Nat) : List Nat :=
  if a ∈ acc then acc else acc ++ [a]

/-- The distinct elements of a list in first-occurrence order — the key
order of a CPython dict built by successive insertions. -/
def dedupKeepFirst (l : List Nat) : List Nat :=
  l.foldl pushUniqueNat []

/-- Evidence whose side-0 reads arrive at positions 500, 100, 300 in that
order, with thresholds admitting every position. -/
def ev8 : Evidence :=
  { break1 := ⟨"1", 50, 600, ORIENT.LEFT, STRAND.NS⟩,
    break2 := ⟨"1", 700, 900, ORIENT.RIGHT, STRAND.NS⟩,
    opposing_strands := false, stranded := false, bam_stranded := false,
    untemplated_sequence := some "",
    split_reads0 :=
      [⟨"p1", false, fun _ => some 500⟩, ⟨"p2", false, fun _ => some 100⟩,
       ⟨"p3", false, fun _ => some 300⟩],
    split_reads1 := [],
    flanking_pairs := [], contigs := [],
    computeFragmentSize := fun _ _ => ⟨0, 0⟩,
    read_length := 10, min_expected_fragment_size := 200,
    max_expected_fragment_size := 1000,
    min_flanking_pairs_resolution := 1, min_splits_reads_resolution := 1,
    min_non_target_aligned_split_reads := 0, min_linking_split_reads := 1 }

/-- Evidence with no contigs, no split reads and no flanking pairs: every
strategy fails and the only collected message is the flanking-coverage
failure. -/
def ev9 : Evidence :=
  { break1 := ⟨"1", 50, 150, ORIENT.LEFT, STRAND.NS⟩,
    break2 := ⟨"1", 450, 550, ORIENT.RIGHT, STRAND.NS⟩,
    opposing_strands := false, stranded := false, bam_stranded := false,
    untemplated_sequence := some "",
    split_reads0 := [], split_reads1 := [],
    flanking_pairs := [], contigs := [],
    computeFragmentSize := fun _ _ => ⟨0, 0⟩,
    read_length := 10, min_expected_fragment_size := 200,
    max_expected_fragment_size := 1000,
    min_flanking_pairs_resolution := 1, min_splits_reads_resolution := 5,
    min_non_target_aligned_split_reads := 0, min_linking_split_reads := 1 }

/-- Sanity link between the faithful constructor and `mkEventCall`: under the
classification guard, the constructor used by the split/flanking paths
succeeds and yields exactly the record the pure stage functions build. -/
theorem eventCallInit_split_ok (b1 b2 : Breakpoint) (ev : Evidence)
    (et : SVTYPE) (cm : CALL_METHOD) (m2 : Option CALL_METHOD)
    (h : et ∈ classifyEvidence ev) :
    eventCallInit b1 b2 ev et (some cm) m2 none none none =
      .ok (mkEventCall ev et b1 b2 (cm, m2.getD cm)) := by
  cases m2 <;> simp [eventCallInit, mkEventCall, h]

/-- C1.  The claim says an accepted contig candidate becomes an `EventCall`
with `call_method = (CONTIG, CONTIG)` and, for Scenario A, that exactly one
such call with empty untemplated sequence results.  On the code, the
Scenario A candidate passes every filter of `_call_by_contigs` and control
reaches the `EventCall(...)` call at call.py lines 186-195, which passes the
keyword arguments `alignment=` and `opposing_strands=` that
`EventCall.__init__` (lines 18-28) does not accept and omits its required
`call_method` parameter: Python raises `TypeError`, so no `EventCall` is
ever returned. -/
theorem c1_contig_resolver_type_error :
    callByContigs scenarioAEvidence SVTYPE.DEL = Except.error PyError.typeError := by
  rfl

/-- C2.  The claim says that when the contig resolver yields at least one
call, `call_events` returns exactly those calls.  On the code the contig
resolver can never yield a call: any accepted candidate raises `TypeError`
(see `c1_contig_resolver_type_error`), `call_events` does not guard the
`_call_by_contigs` call, and the `TypeError` propagates to the caller — here
evaluated on the Scenario A evidence, for which the claim promises a
one-call result. -/
theorem c2_call_events_type_error :
    callEvents scenarioAEvidence SVTYPE.DEL = Except.error PyError.typeError := by
  rfl

/-- C5.  The claim describes the fragment-size partition of
`count_flanking_support`.  On the code, the partition test for deletions and
insertions dereferences `exp_isize_range` (call.py lines 79-80), a name
defined nowhere in the module, so the method raises `NameError` on any
deletion or insertion call whose evidence has at least one flanking pair —
here evaluated on a deletion call with one flanking pair. -/
theorem c5_flanking_support_name_error :
    countFlankingSupport c5Call = Except.error PyError.nameError := by
  rfl

/-- C10.  Hashing an `EventCall` raises, as the claim says; but the claim's
identity-based equality fails: `EventCall.__eq__` (call.py lines 140-141)
evaluates `object.__eq__(self, other)` without returning it, so `c == c`
evaluates to `None`, which is falsy — an `EventCall` does not compare equal
to itself. -/
theorem c10_eq_discards_result :
    eventCallHash c10Call = Except.error PyError.notImplementedError
      ∧ pyTruthy (eventCallEq c10Call c10Call) = false := by
  exact ⟨rfl, rfl⟩

/-- C7.  Scenario B yields exactly one `(SPLIT, SPLIT)` call, as the claim
says — but its linking support is 0, not 6: `_call_by_supporting_reads`
keys candidate positions at `breakpoint_pos(read) + 1` (call.py line 331)
while `count_split_read_support` compares the raw `breakpoint_pos(read)`
against the call's breakpoint (lines 115-116, 126-127), so the very reads
that produced the call at position 101/501 sit at 100/500 and overlap
neither side; all five support counts are 0. -/
theorem c7_scenario_b_linking_support_zero :
    callEvents evB SVTYPE.DEL = Except.ok [scenarioBCall]
      ∧ scenarioBCall.call_method = (CALL_METHOD.SPLIT, CALL_METHOD.SPLIT)
      ∧ countSplitReadSupport scenarioBCall = (0, 0, 0, 0, 0) := by
  exact ⟨rfl, rfl, rfl⟩

/-- C3 counterexample.  Linked pairing produces one call on `ev3`, yet the
resolver's result has two calls: the leftover cross product (201, 601) is
emitted as well, because call.py lines 372-385 run unconditionally rather
than only when linked pairing yields nothing. -/
theorem c3_unlinked_emitted_despite_linked :
    (linkedCalls ev3 SVTYPE.DEL).length = 1
      ∧ (callBySupportingReads ev3 SVTYPE.DEL).map List.length = Except.ok 2 := by
  exact ⟨rfl, rfl⟩

/-- C3 amended.  The leftover cross-product stage always runs: whenever
linked pairing yields at least one call (and the requested event type is in
the evidence's classification set, as `call_events` guarantees), the
resolver returns the linked calls followed by the cross product of the
break1 candidates not used as a linked break1 start with the break2
candidates not used as a linked break2 start. -/
theorem c3_leftover_cross_product_always_runs (ev : Evidence) (et : SVTYPE)
    (h1 : et ∈ classifyEvidence ev) (h2 : linkedCalls ev et ≠ []) :
    callBySupportingReads ev et =
      Except.ok (linkedCalls ev et ++ unlinkedCalls ev et) := by
  have hlu : (linkedCalls ev et ++ unlinkedCalls ev et).isEmpty = false := by
    cases hl : linkedCalls ev et with
    | nil => exact absurd hl h2
    | cons a l => rfl
  unfold callBySupportingReads
  simp [hlu, h1]

/-- Witness for `c3_leftover_cross_product_always_runs` at the concrete
evidence `ev3`. -/
theorem c3_leftover_cross_product_always_runs_witness :
    callBySupportingReads ev3 SVTYPE.DEL =
      Except.ok (linkedCalls ev3 SVTYPE.DEL ++ unlinkedCalls ev3 SVTYPE.DEL) := by
  exact c3_leftover_cross_product_always_runs ev3 SVTYPE.DEL (by decide)
    (by
      intro h
      have hl : (linkedCalls ev3 SVTYPE.DEL).length = 0 := by rw [h]; rfl
      exact absurd hl (by decide))

/-- C4 counterexample.  The mixed split/flanking path of
`_call_by_supporting_reads` fixes break1 at a split-read position and lets
`_call_by_flanking_pairs` place break2 with no ordering clamp for a
LEFT-oriented second breakpoint (call.py lines 285-292), so `call_events`
returns an intrachromosomal call with `break2.start < break1.start`. -/
theorem c4_ordering_violation :
    callEvents ev4 SVTYPE.INV = Except.ok [c4BadCall]
      ∧ c4BadCall.break1.chr = c4BadCall.break2.chr
      ∧ c4BadCall.break2.start < c4BadCall.break1.start := by
  exact ⟨rfl, rfl, by decide⟩

/-- C4 amended.  The strict ordering invariant holds for the calls built by
the split-read pairing stages (linked and leftover cross product), whose
ordering guard `first >= second: continue` is explicit in call.py lines
354-356 and 376-378; the counterexample above shows it does not extend to
mixed split/flanking calls. -/
theorem c4_split_pairs_ordered (ev : Evidence) (et : SVTYPE) (c : EventCall)
    (hc : c ∈ linkedCalls ev et ++ unlinkedCalls ev et)
    (hchr : c.break1.chr = c.break2.chr) :
    c.break1.start < c.break2.start := by
  rcases List.mem_append.mp hc with h | h
  · simp only [linkedCalls] at h
    obtain ⟨fe, _, h2⟩ := List.mem_flatMap.mp h
    obtain ⟨se, _, h3⟩ := List.mem_filterMap.mp h2
    split at h3
    · exact absurd h3 (by simp)
    · next hcond =>
      obtain rfl := Option.some.inj h3
      simp only [mkEventCall, Breakpoint.atPos] at hchr ⊢
      have hlt : fe.1 < se.1 := by
        by_contra hge
        exact hcond (Or.inl ⟨hchr, Nat.le_of_not_lt hge⟩)
      exact_mod_cast hlt
  · simp only [unlinkedCalls] at h
    obtain ⟨first, _, h2⟩ := List.mem_flatMap.mp h
    obtain ⟨second, _, h3⟩ := List.mem_filterMap.mp h2
    split at h3
    · exact absurd h3 (by simp)
    · next hcond =>
      obtain rfl := Option.some.inj h3
      simp only [mkEventCall, Breakpoint.atPos] at hchr ⊢
      have hlt : first < second := by
        by_contra hge
        exact hcond ⟨hchr, Nat.le_of_not_lt hge⟩
      exact_mod_cast hlt

/-- Witness for `c4_split_pairs_ordered` at a concrete split-pairing call. -/
theorem c4_split_pairs_ordered_witness :
    c4WitnessCall.break1.start < c4WitnessCall.break2.start := by
  exact c4_split_pairs_ordered ev3 SVTYPE.DEL c4WitnessCall
    (List.mem_append_left _ (by
      rw [show linkedCalls ev3 SVTYPE.DEL = [c4WitnessCall] from rfl]
      exact List.mem_singleton_self _))
    rfl

/-- The support-counting fold of `count_split_read_support` builds exactly
the qualifying-name sets. -/
theorem foldl_splitStep (o : ORIENT) (b : Breakpoint) :
    ∀ (reads : List SplitRead) (acc : Finset String × Finset String),
      reads.foldl (splitStep o b) acc =
        (acc.1 ∪ supportNames o b reads, acc.2 ∪ realignNames o b reads)
  | [], acc => by simp [supportNames, realignNames]
  | r :: rest, acc => by
    rw [List.foldl_cons, foldl_splitStep o b rest]
    by_cases hq : qualifiesB o b r
    · by_cases ht : r.targeted
      · simp [splitStep, supportNames, realignNames, hq, ht,
          List.filter_cons, Finset.union_insert]
      · simp [splitStep, supportNames, realignNames, hq, ht,
          List.filter_cons, Finset.union_insert]
    · simp [splitStep, supportNames, realignNames, hq, List.filter_cons]

/-- C6.  `count_split_read_support` returns the five counts (break1 support,
break1 forced-realignment subset, break2 support, break2 forced-realignment
subset, linking support as the intersection of the two sides' qualifying
name sets), each side counting exactly the distinct names of reads whose
computed breakpoint position overlaps that side's resolved position; and a
read whose computed position does not overlap the call's breakpoint
contributes nothing — adding it to the evidence leaves all five counts
unchanged. -/
theorem c6_split_read_support (call : EventCall) (r : SplitRead) :
    countSplitReadSupport call =
      ((supportNames call.break1.orient call.break1 call.evidence.split_reads0).card,
       (realignNames call.break1.orient call.break1 call.evidence.split_reads0).card,
       (supportNames call.break2.orient call.break2 call.evidence.split_reads1).card,
       (realignNames call.break2.orient call.break2 call.evidence.split_reads1).card,
       (supportNames call.break1.orient call.break1 call.evidence.split_reads0
         ∩ supportNames call.break2.orient call.break2 call.evidence.split_reads1).card)
    ∧ (qualifiesB call.break1.orient call.break1 r = false →
        countSplitReadSupport (withExtraRead0 call r) = countSplitReadSupport call) := by
  constructor
  · simp [countSplitReadSupport, foldl_splitStep]
  · intro hq
    simp [countSplitReadSupport, withExtraRead0, List.foldl_cons, splitStep, hq]

/-- Witness for `c6_split_read_support`: at the concrete call, adding the
non-overlapping read changes none of the five counts. -/
theorem c6_split_read_support_witness :
    countSplitReadSupport (withExtraRead0 c6WitnessCall c6BadRead) =
      countSplitReadSupport c6WitnessCall := by
  exact (c6_split_read_support c6WitnessCall c6BadRead).2 rfl

/-- Appending a read under key `p` adds `p` at the end of the key sequence
exactly when it is new. -/
theorem addTo_keys (d : List (Nat × List SplitRead)) (p : Nat) (r : SplitRead) :
    (addTo d p r).map Prod.fst = pushUniqueNat (d.map Prod.fst) p := by
  induction d with
  | nil => simp [addTo, pushUniqueNat]
  | cons e rest ih =>
    obtain ⟨q, rs⟩ := e
    by_cases h : q = p
    · simp [addTo, pushUniqueNat, h]
    · by_cases hm : p ∈ rest.map Prod.fst
      · simp [addTo, pushUniqueNat, h, hm, ih, Ne.symm h]
      · simp [addTo, pushUniqueNat, h, hm, ih, Ne.symm h]

/-- The key sequence of the position-dictionary loop is the fold of
first-occurrence insertions over the reads' computed keys. -/
theorem posLoop_keys (o : ORIENT) :
    ∀ (reads : List SplitRead) (d : List (Nat × List SplitRead)),
      ((reads.foldl (posStep o) d).map Prod.fst) =
        (reads.filterMap (posKey o)).foldl pushUniqueNat (d.map Prod.fst)
  | [], _ => rfl
  | r :: rest, d => by
    rw [List.foldl_cons]
    cases h : posKey o r with
    | none => simp [posStep, h, List.filterMap_cons, posLoop_keys o rest]
    | some p =>
      simp only [posStep, h, List.filterMap_cons, List.foldl_cons]
      rw [posLoop_keys o rest, addTo_keys]

/-- The key order of the unfiltered position dictionary is the
first-occurrence order of the reads' computed positions. -/
theorem keys_buildPos (o : ORIENT) (reads : List SplitRead) :
    (buildPos o reads).map Prod.fst =
      dedupKeepFirst (reads.filterMap (posKey o)) := by
  exact posLoop_keys o reads []

/-- First-occurrence insertion preserves duplicate-freeness. -/
theorem nodup_pushUniqueNat (acc : List Nat) (a : Nat) (h : acc.Nodup) :
    (pushUniqueNat acc a).Nodup := by
  unfold pushUniqueNat
  split
  · exact h
  · next hna =>
    refine h.append (List.nodup_singleton a) ?_
    intro x hx hxa
    rw [List.mem_singleton] at hxa
    exact hna (hxa ▸ hx)

/-- The first-occurrence fold yields a duplicate-free list. -/
theorem nodup_foldl_pushUniqueNat :
    ∀ (l acc : List Nat), acc.Nodup → (l.foldl pushUniqueNat acc).Nodup
  | [], _, h => h
  | a :: rest, acc, h =>
    nodup_foldl_pushUniqueNat rest (pushUniqueNat acc a) (nodup_pushUniqueNat acc a h)

/-- A sublist of a duplicate-free list is that list filtered by membership
in the sublist. -/
theorem sublist_eq_filter_mem :
    ∀ {s l : List Nat}, List.Sublist s l → l.Nodup →
      s = l.filter fun p => decide (p ∈ s) := by
  intro s l h
  induction h with
  | slnil => intro _; rfl
  | @cons s2 l2 a h ih =>
    intro hnd
    obtain ⟨ha, hnd2⟩ := List.nodup_cons.mp hnd
    have has : a ∉ s2 := fun hmem => ha (h.subset hmem)
    rw [List.filter_cons]
    simp only [has, decide_eq_false, if_false]
    exact ih hnd2
  | @cons₂ s2 l2 a h ih =>
    intro hnd
    obtain ⟨ha, hnd2⟩ := List.nodup_cons.mp hnd
    rw [List.filter_cons]
    have hmem : decide (a ∈ a :: s2) = true := by simp
    rw [hmem]
    simp only [if_true]
    have hcg : ∀ x ∈ l2, decide (x ∈ a :: s2) = decide (x ∈ s2) := by
      intro x hx
      have hxa : x ≠ a := fun hxa => ha (hxa ▸ hx)
      simp [List.mem_cons, hxa]
    rw [List.filter_congr hcg, ← ih hnd2]

/-- C8 counterexample.  The candidate sequence the pairing loops of
`_call_by_supporting_reads` iterate is the dict key order — insertion order,
not sorted: on `ev8` it is [501, 101, 301], sorted in neither direction, so
the enumeration does not iterate an explicitly sorted sequence. -/
theorem c8_enumeration_not_sorted :
    candidates1 ev8 = [501, 101, 301]
      ∧ ¬ List.Sorted (fun a b => a ≤ b) (candidates1 ev8)
      ∧ ¬ List.Sorted (fun a b => b ≤ a) (candidates1 ev8) := by
  refine ⟨rfl, fun h => ?_, fun h => ?_⟩
  · have h2 := (List.sorted_cons.mp (show List.Sorted (fun a b => a ≤ b) [501, 101, 301] from h)).1 101 (by simp)
    omega
  · have h2 := (List.sorted_cons.mp (List.sorted_cons.mp
      (show List.Sorted (fun a b => b ≤ a) [501, 101, 301] from h)).2).1 301 (by simp)
    omega

/-- C8 amended.  The combinatorial enumeration iterates the dict key
sequence, which is the first-occurrence (insertion) order of the reads'
computed positions restricted to the qualifying candidates — a deterministic
function of the evidence, so identical evidence yields identical iteration
order and output, but not a sorted sequence. -/
theorem c8_insertion_order (ev : Evidence) :
    (candidates1 ev =
      (dedupKeepFirst ((ev.split_reads0).filterMap (posKey ev.break1.orient))).filter
        fun p => decide (p ∈ candidates1 ev))
    ∧ (candidates2 ev =
      (dedupKeepFirst ((ev.split_reads1).filterMap (posKey ev.break2.orient))).filter
        fun p => decide (p ∈ candidates2 ev)) := by
  constructor
  · have hsub : List.Sublist (candidates1 ev)
        ((buildPos ev.break1.orient ev.split_reads0).map Prod.fst) :=
      (List.filter_sublist _).map Prod.fst
    rw [keys_buildPos] at hsub
    exact sublist_eq_filter_mem hsub
      (nodup_foldl_pushUniqueNat _ [] List.nodup_nil)
  · have hsub : List.Sublist (candidates2 ev)
        ((buildPos ev.break2.orient ev.split_reads1).map Prod.fst) :=
      (List.filter_sublist _).map Prod.fst
    rw [keys_buildPos] at hsub
    exact sublist_eq_filter_mem hsub
      (nodup_foldl_pushUniqueNat _ [] List.nodup_nil)

/-- The split-read resolver never returns an empty call list: every success
branch of `_call_by_supporting_reads` returns at least one call, and the
empty case raises.  Hence the generic insufficient-evidence branch of
`call_events` (line 169) can only be reached vacuously. -/
theorem callBySupportingReads_ne_nil (ev : Evidence) (et : SVTYPE)
    (cs : List EventCall) (h : callBySupportingReads ev et = Except.ok cs) :
    cs ≠ [] := by
  unfold callBySupportingReads at h
  by_cases hlu : (linkedCalls ev et ++ unlinkedCalls ev et).isEmpty = true
  · simp only [hlu, if_true] at h
    cases hm1 : mixedLoopFirst ev et (candidates1 ev) with
    | error e => rw [hm1] at h; exact absurd h (by simp)
    | ok pr1 =>
      rw [hm1] at h
      obtain ⟨c1, m1⟩ := pr1
      cases hm2 : mixedLoopSecond ev et (candidates2 ev) with
      | error e => rw [hm2] at h; exact absurd h (by simp)
      | ok pr2 =>
        rw [hm2] at h
        obtain ⟨c2, m2⟩ := pr2
        by_cases hmc : (c1 ++ c2).isEmpty = true
        · simp only [hmc, if_true] at h
          cases hf : callByFlankingPairs ev et none none with
          | ok fs =>
            rw [hf] at h
            by_cases hcl : et ∈ classifyEvidence ev
            · simp only [hcl, if_true] at h
              obtain rfl := Except.ok.inj h
              exact List.cons_ne_nil _ _
            · simp [hcl] at h
          | error e =>
            rw [hf] at h
            cases e <;> simp at h
        · simp only [hmc, if_false, Bool.false_eq_true] at h
          by_cases hcl : et ∈ classifyEvidence ev
          · simp only [hcl, if_true] at h
            obtain rfl := Except.ok.inj h
            exact fun hnil => hmc (by rw [hnil]; rfl)
          · simp [hcl] at h
  · simp only [hlu, if_false, Bool.false_eq_true] at h
    by_cases hcl : et ∈ classifyEvidence ev
    · simp only [hcl, if_true] at h
      obtain rfl := Except.ok.inj h
      exact fun hnil => hlu (by rw [hnil]; rfl)
    · simp [hcl] at h

/-- C9.  When the contig resolver completes with no call and the split-read
resolver fails with a `UserWarning`, `call_events` raises a single
`UserWarning` carrying the distinct collected messages, sorted and joined
with semicolons (call.py lines 160-167). -/
theorem c9_failure_aggregation (ev : Evidence) (et : SVTYPE) (m : String)
    (hput : et ∈ putativeEventTypes ev)
    (hcontig : callByContigs ev et = Except.ok [])
    (hsplit : callBySupportingReads ev et = Except.error (PyError.userWarning m)) :
    callEvents ev et = Except.error (PyError.userWarning (errsJoin [m])) := by
  unfold callEvents
  simp [hput, hcontig, hsplit]

/-- Witness for `c9_failure_aggregation` at the concrete evidence `ev9`. -/
theorem c9_failure_aggregation_witness :
    callEvents ev9 SVTYPE.DEL = Except.error (PyError.userWarning
      (errsJoin ["insufficient coverage to call by flanking reads"])) := by
  exact c9_failure_aggregation ev9 SVTYPE.DEL
    "insufficient coverage to call by flanking reads" (by decide) rfl rfl

end Mavis
